import Mathlib

/-! # web-rwkv-ffi: the C interface and its two sample harnesses

The repository consists of two revisions of a C header (`include/web_rwkv_ffi.h`,
the current one, and `assets/web_rwkv_ffi.h`, the older one) and two harness
programs (`assets/test.cpp`, `test/test.cpp`) that open the shared library, resolve
three symbols and drive a short generation loop.

The development has three parts:

* the declarations of both headers as data (C types, struct declarations,
  function declarations), next to the export list and struct descriptions of the
  written interface contract, and the natural-alignment layout of a struct;
* the two `main` functions as functions from an environment (the dynamic loader,
  the library behind the symbols, the tokenizer) to the observable run: the
  sequence of events and the exit code;
* the theorems.
-/

namespace WebRwkvFfi

/-! ## C types and declarations -/

/-- C types that occur in the headers and in the harness casts. `ptr c t` is a
pointer whose pointee is `t`, const-qualified when `c` is `true`; so
`const char *` is `ptr true char` and `const uint32_t **` is
`ptr false (ptr true uint32_t)`. -/
inductive CType where
  | void
  | bool
  | char
  | uint16_t
  | uint32_t
  | uint64_t
  | uintptr_t
  | float
  | struct (tag : String)
  | ptr (constPointee : Bool) (pointee : CType)
deriving DecidableEq, Repr

/-- A named, typed slot: a function parameter or a struct field. -/
structure Param where
  ty : CType
  name : String
deriving DecidableEq, Repr

/-- A function declaration: return type, name, parameters in order. -/
structure FnDecl where
  ret : CType
  name : String
  params : List Param
deriving DecidableEq, Repr

/-- A struct declaration: tag and fields in declaration order. -/
structure StructDecl where
  tag : String
  fields : List Param
deriving DecidableEq, Repr

/-- The type of a function pointer, as written in a cast: parameter names do not
occur in it. -/
structure FnPtrType where
  ret : CType
  params : List CType
deriving DecidableEq, Repr

/-- Parameter types of a declaration, in order. -/
def FnDecl.paramTypes (d : FnDecl) : List CType :=
  d.params.map Param.ty

/-- The function type a declaration gives its symbol. -/
def FnDecl.fnType (d : FnDecl) : FnPtrType :=
  ⟨d.ret, d.paramTypes⟩

/-- Field types of a struct, in declaration order. -/
def StructDecl.fieldTypes (s : StructDecl) : List CType :=
  s.fields.map Param.ty

/-- Field names of a struct, in declaration order. -/
def StructDecl.fieldNames (s : StructDecl) : List String :=
  s.fields.map Param.name

/-- Look a declaration up by name in a header. -/
def lookupDecl (decls : List FnDecl) (name : String) : Option FnDecl :=
  decls.find? fun d => d.name == name

/-- The type with every const qualifier removed. -/
def CType.eraseConst : CType → CType
  | .ptr _ t => .ptr false t.eraseConst
  | t => t

open CType in
/-- Shorthand for `const char *`. -/
def cstring : CType := ptr true char

/-! ## The current header, `include/web_rwkv_ffi.h` -/

namespace CurrentHeader

open CType

/-- Lines 3-8. -/
def Sampler : StructDecl :=
  ⟨"Sampler", [⟨float, "temp"⟩, ⟨float, "top_p"⟩, ⟨uintptr_t, "top_k"⟩]⟩

/-- Lines 10-13. -/
def ModelOutput : StructDecl :=
  ⟨"ModelOutput", [⟨uintptr_t, "len"⟩, ⟨ptr false float, "logits"⟩]⟩

/-- Lines 15-19. -/
def ModelOutputBatch : StructDecl :=
  ⟨"ModelOutputBatch",
    [⟨uintptr_t, "batch"⟩, ⟨uintptr_t, "len"⟩, ⟨ptr false float, "logits"⟩]⟩

/-- Lines 21-28. -/
def ModelInfoOutput : StructDecl :=
  ⟨"ModelInfoOutput",
    [⟨uintptr_t, "version"⟩, ⟨uintptr_t, "num_layer"⟩, ⟨uintptr_t, "num_hidden"⟩,
     ⟨uintptr_t, "num_emb"⟩, ⟨uintptr_t, "num_vocab"⟩, ⟨uintptr_t, "num_head"⟩]⟩

/-- Lines 30-33. -/
def StateRaw : StructDecl :=
  ⟨"StateRaw", [⟨uintptr_t, "len"⟩, ⟨ptr false float, "state"⟩]⟩

/-- The five structs of the header, in declaration order. -/
def structs : List StructDecl :=
  [Sampler, ModelOutput, ModelOutputBatch, ModelInfoOutput, StateRaw]

/-- The `extern "C"` block, lines 38-98, in declaration order. -/
def decls : List FnDecl :=
  [ ⟨void, "init", [⟨uint64_t, "seed"⟩]⟩,
    ⟨void, "seed", [⟨uint64_t, "seed"⟩]⟩,
    ⟨void, "load",
      [⟨cstring, "model"⟩, ⟨uintptr_t, "quant"⟩, ⟨uintptr_t, "quant_nf4"⟩,
       ⟨uintptr_t, "quant_sf4"⟩, ⟨bool, "fp16"⟩, ⟨uintptr_t, "batch"⟩]⟩,
    ⟨void, "load_prefab", [⟨cstring, "model"⟩, ⟨bool, "fp16"⟩, ⟨uintptr_t, "batch"⟩]⟩,
    ⟨void, "load_extended",
      [⟨cstring, "model"⟩, ⟨uintptr_t, "quant"⟩, ⟨uintptr_t, "quant_nf4"⟩,
       ⟨uintptr_t, "quant_sf4"⟩, ⟨bool, "fp16"⟩, ⟨uintptr_t, "batch"⟩]⟩,
    ⟨void, "load_with_rescale",
      [⟨cstring, "model"⟩, ⟨uintptr_t, "quant"⟩, ⟨uintptr_t, "quant_nf4"⟩,
       ⟨uintptr_t, "quant_sf4"⟩, ⟨uintptr_t, "rescale"⟩, ⟨bool, "fp16"⟩,
       ⟨uintptr_t, "batch"⟩]⟩,
    ⟨void, "release", []⟩,
    ⟨void, "clear_state", [⟨uintptr_t, "batch"⟩]⟩,
    ⟨uint32_t, "infer",
      [⟨ptr true uint32_t, "tokens"⟩, ⟨uintptr_t, "len"⟩, ⟨struct "Sampler", "sampler"⟩]⟩,
    ⟨void, "free_raw", [⟨struct "ModelOutput", "output"⟩]⟩,
    ⟨struct "ModelOutput", "infer_raw_last",
      [⟨ptr true uint32_t, "tokens"⟩, ⟨uintptr_t, "len"⟩]⟩,
    ⟨struct "ModelOutputBatch", "infer_raw_last_batch",
      [⟨ptr false (ptr true uint32_t), "tokens"⟩, ⟨ptr false uintptr_t, "len"⟩,
       ⟨uintptr_t, "batch"⟩]⟩,
    ⟨struct "ModelOutput", "infer_raw_all",
      [⟨ptr true uint32_t, "tokens"⟩, ⟨uintptr_t, "len"⟩]⟩,
    ⟨struct "ModelOutputBatch", "infer_raw_all_batch",
      [⟨ptr false (ptr true uint32_t), "tokens"⟩, ⟨ptr false uintptr_t, "len"⟩,
       ⟨uintptr_t, "batch"⟩]⟩,
    ⟨struct "ModelInfoOutput", "get_model_info", []⟩,
    ⟨struct "StateRaw", "get_state", [⟨uintptr_t, "batch"⟩]⟩,
    ⟨void, "set_state", [⟨struct "StateRaw", "state"⟩, ⟨uintptr_t, "batch"⟩]⟩,
    ⟨void, "free_state", [⟨struct "StateRaw", "state"⟩]⟩ ]

end CurrentHeader

/-! ## The older header, `assets/web_rwkv_ffi.h` -/

namespace OlderHeader

open CType

/-- Lines 5-10. -/
def Sampler : StructDecl :=
  ⟨"Sampler", [⟨float, "temp"⟩, ⟨float, "top_p"⟩, ⟨uintptr_t, "top_k"⟩]⟩

/-- The `extern "C"` block, lines 12-40, in declaration order. -/
def decls : List FnDecl :=
  [ ⟨void, "init", [⟨uint64_t, "seed"⟩]⟩,
    ⟨void, "seed", [⟨uint64_t, "seed"⟩]⟩,
    ⟨void, "load", [⟨cstring, "model"⟩, ⟨uintptr_t, "quant"⟩, ⟨uintptr_t, "quant_nf4"⟩]⟩,
    ⟨void, "load_with_rescale",
      [⟨cstring, "model"⟩, ⟨uintptr_t, "quant"⟩, ⟨uintptr_t, "quant_nf4"⟩,
       ⟨uintptr_t, "rescale"⟩]⟩,
    ⟨void, "clear_state", []⟩,
    ⟨uint16_t, "infer",
      [⟨ptr true uint16_t, "tokens"⟩, ⟨uintptr_t, "len"⟩, ⟨struct "Sampler", "sampler"⟩]⟩ ]

end OlderHeader

/-! ## The written interface contract

The export list of section 6 and the struct descriptions of section 3 of the
interface document, transcribed with `word` read as `uintptr_t`, `cstring` as
`const char *`, `uint32`/`uint64` as `uint32_t`/`uint64_t` and `float32` as
`float`. -/

namespace Contract

open CType

/-- The contract's platform word. -/
def word : CType := uintptr_t

/-- The exported C symbols as section 6 of the contract lists them. -/
def exports : List FnDecl :=
  [ ⟨void, "init", [⟨uint64_t, "seed"⟩]⟩,
    ⟨void, "seed", [⟨uint64_t, "seed"⟩]⟩,
    ⟨void, "load",
      [⟨cstring, "model"⟩, ⟨word, "quant"⟩, ⟨word, "quant_nf4"⟩, ⟨word, "quant_sf4"⟩,
       ⟨bool, "fp16"⟩, ⟨word, "batch"⟩]⟩,
    ⟨void, "load_prefab", [⟨cstring, "model"⟩, ⟨bool, "fp16"⟩, ⟨word, "batch"⟩]⟩,
    ⟨void, "load_extended",
      [⟨cstring, "model"⟩, ⟨word, "quant"⟩, ⟨word, "quant_nf4"⟩, ⟨word, "quant_sf4"⟩,
       ⟨bool, "fp16"⟩, ⟨word, "batch"⟩]⟩,
    ⟨void, "load_with_rescale",
      [⟨cstring, "model"⟩, ⟨word, "quant"⟩, ⟨word, "quant_nf4"⟩, ⟨word, "quant_sf4"⟩,
       ⟨word, "rescale"⟩, ⟨bool, "fp16"⟩, ⟨word, "batch"⟩]⟩,
    ⟨void, "release", []⟩,
    ⟨void, "clear_state", [⟨word, "batch_idx"⟩]⟩,
    ⟨uint32_t, "infer",
      [⟨ptr true uint32_t, "tokens"⟩, ⟨word, "len"⟩, ⟨struct "Sampler", "sampler"⟩]⟩,
    ⟨void, "free_raw", [⟨struct "ModelOutput", "output"⟩]⟩,
    ⟨struct "ModelOutput", "infer_raw_last", [⟨ptr true uint32_t, "tokens"⟩, ⟨word, "len"⟩]⟩,
    ⟨struct "ModelOutputBatch", "infer_raw_last_batch",
      [⟨ptr false (ptr true uint32_t), "tokens"⟩, ⟨ptr true word, "lens"⟩, ⟨word, "batch"⟩]⟩,
    ⟨struct "ModelOutput", "infer_raw_all", [⟨ptr true uint32_t, "tokens"⟩, ⟨word, "len"⟩]⟩,
    ⟨struct "ModelOutputBatch", "infer_raw_all_batch",
      [⟨ptr false (ptr true uint32_t), "tokens"⟩, ⟨ptr true word, "lens"⟩, ⟨word, "batch"⟩]⟩,
    ⟨struct "ModelInfoOutput", "get_model_info", []⟩,
    ⟨struct "StateRaw", "get_state", [⟨word, "batch_idx"⟩]⟩,
    ⟨void, "set_state", [⟨struct "StateRaw", "state"⟩, ⟨word, "batch_idx"⟩]⟩,
    ⟨void, "free_state", [⟨struct "StateRaw", "state"⟩]⟩ ]

/-- Section 3: Sampler is (temperature: float32, top_p: float32, top_k: unsigned word). -/
def Sampler : StructDecl :=
  ⟨"Sampler", [⟨float, "temperature"⟩, ⟨float, "top_p"⟩, ⟨word, "top_k"⟩]⟩

/-- Section 3: ModelOutput is (len: word, logits: pointer to float32). -/
def ModelOutput : StructDecl :=
  ⟨"ModelOutput", [⟨word, "len"⟩, ⟨ptr false float, "logits"⟩]⟩

/-- Section 3: the field names of ModelInfoOutput, in order. -/
def ModelInfoOutputFields : List String :=
  ["version", "num_layer", "num_hidden", "num_emb", "num_vocab", "num_head"]

/-- Section 3: StateRaw is (len: word, state: pointer to float32). -/
def StateRaw : StructDecl :=
  ⟨"StateRaw", [⟨word, "len"⟩, ⟨ptr false float, "state"⟩]⟩

/-- Two lists of declarations describe the same interface: the same function
names, and for every name the same return type and the same parameter types in
the same order (hence the same number of parameters). -/
def SameInterface (a b : List FnDecl) : Prop :=
  a.map FnDecl.name = b.map FnDecl.name ∧
  ∀ d ∈ a, ∀ e ∈ b, d.name = e.name → d.ret = e.ret ∧ d.paramTypes = e.paramTypes

instance (a b : List FnDecl) : Decidable (SameInterface a b) := by
  unfold SameInterface; infer_instance

end Contract

/-! ## Struct layout under natural alignment -/

/-- Size in bytes of a scalar type on a platform whose word (and data pointer) is
`w` bytes. `void` and by-value structs have no scalar size. -/
def sizeOf (w : Nat) : CType → Option Nat
  | .void => none
  | .bool => some 1
  | .char => some 1
  | .uint16_t => some 2
  | .uint32_t => some 4
  | .uint64_t => some 8
  | .uintptr_t => some w
  | .float => some 4
  | .struct _ => none
  | .ptr _ _ => some w

/-- Natural alignment: a scalar is aligned to its own size. -/
def alignOf (w : Nat) (t : CType) : Option Nat :=
  sizeOf w t

/-- The least multiple of `a` that is at least `n`. -/
def alignUp (n a : Nat) : Nat :=
  (n + a - 1) / a * a

/-- Offsets, size and alignment of a laid-out struct. -/
structure Layout where
  offsets : List Nat
  size : Nat
  align : Nat
deriving DecidableEq, Repr

/-- Place the fields one after another from byte `cur`: each field goes to the
next offset aligned for it. Returns the offsets, the first free byte and the
largest alignment seen. -/
def placeFields (w : Nat) : List CType → Nat → Nat → Option (List Nat × Nat × Nat)
  | [], cur, al => some ([], cur, al)
  | t :: ts, cur, al =>
    match sizeOf w t, alignOf w t with
    | some sz, some a =>
      let off := alignUp cur a
      match placeFields w ts (off + sz) (max al a) with
      | some (offs, fin, al2) => some (off :: offs, fin, al2)
      | none => none
    | _, _ => none

/-- Layout of a struct in declaration order under natural alignment: the size is
the end of the last field rounded up to the struct's alignment. -/
def layout (w : Nat) (s : StructDecl) : Option Layout :=
  match placeFields w s.fieldTypes 0 1 with
  | some (offs, fin, al) => some ⟨offs, alignUp fin al, al⟩
  | none => none

/-- Offsets of fields packed with no gap: each offset is the sum of the sizes
before it, starting from `start`. -/
def packedOffsets : List Nat → Nat → List Nat
  | [], _ => []
  | sz :: rest, start => start :: packedOffsets rest (start + sz)

/-- A struct has no padding on a `w`-byte platform: its layout exists, every
field sits at the sum of the sizes of the fields before it, and the struct size
is the sum of the field sizes. -/
def NoPadding (w : Nat) (s : StructDecl) : Prop :=
  (layout w s).isSome ∧
  (layout w s).map (fun L => (L.offsets, L.size)) =
    (s.fieldTypes.mapM (sizeOf w)).map fun sizes => (packedOffsets sizes 0, sizes.sum)

instance (w : Nat) (s : StructDecl) : Decidable (NoPadding w s) := by
  unfold NoPadding; infer_instance

/-- Size of a struct on a `w`-byte platform, when it has a layout. -/
def structSize (w : Nat) (s : StructDecl) : Option Nat :=
  (layout w s).map Layout.size

/-! ## The harness programs

A harness talks to three collaborators it does not implement: the dynamic loader,
the library behind the resolved symbols, and (in `test/test.cpp`) the tokenizer of
`trie.hpp`. They are the environment of a run. The library is an arbitrary state
machine: its functions take the library state, so what `infer` returns may depend
on everything that was called before. External calls are taken to return. -/

/-- A value of `struct Sampler`. The only float values the harnesses write are the
literals `1.0`, which `float` holds exactly, so rationals carry them without loss. -/
structure SamplerValue where
  temp : ℚ
  top_p : ℚ
  top_k : Nat
deriving DecidableEq

/-- The tokenizer object of `trie.hpp` (not part of the repository sources):
`encode` gives token ids of some integer type, `decode` takes a list of ids. -/
structure Tokenizer where
  encode : String → List Int
  decode : List Int → String

/-- The environment of a harness run. Pointers and handles are addresses, `0` is
the null pointer. -/
structure Env (σ : Type) where
  /-- Compiled with `_WIN32` defined. -/
  win32 : Bool
  /-- The handle `dlopen` (`LoadLibrary`) returns for a path. -/
  dlopen : String → Nat
  /-- The message `dlerror()` returns after a failed `dlopen`. -/
  dlerror : String
  /-- The code `GetLastError()` returns after a failed `LoadLibrary`. -/
  GetLastError : Nat
  /-- The address `dlsym` (`GetProcAddress`) returns for a handle and a symbol. -/
  dlsym : Nat → String → Nat
  /-- The library state when the harness starts. -/
  lib : σ
  /-- The library function behind `init`. -/
  init : σ → Nat → σ
  /-- The library function behind `load_with_rescale`, as the harness calls it. -/
  load_with_rescale : σ → String → Nat → Nat → Nat → σ
  /-- The library function behind `infer`: the array `tokens` points into, `len`,
  the sampler; returns the new state and the returned token. -/
  infer : σ → List Nat → Nat → SamplerValue → σ × Nat
  /-- The constructor `TRIE_TOKENIZER(vocabulary file)`. -/
  TRIE_TOKENIZER : String → Tokenizer

/-- What a harness does that can be observed from outside, in order. A library
call records the pointer it is made through (`fn`) and its arguments; `infer`
records the array its `tokens` argument points into and the value it returned. -/
inductive Event where
  | dlopen (path : String)
  | dlsym (handle : Nat) (symbol : String)
  | cerr (text : String)
  | cout (text : String)
  | init (fn : Nat) (seed : Nat)
  | load_with_rescale (fn : Nat) (model : String) (quant quant_nf4 rescale : Nat)
  | infer (fn : Nat) (tokens : List Nat) (len : Nat) (sampler : SamplerValue) (ret : Nat)
deriving DecidableEq

/-- The function pointer a library call goes through. -/
def Event.calledPtr : Event → Option Nat
  | .init fn _ => some fn
  | .load_with_rescale fn _ _ _ _ => some fn
  | .infer fn _ _ _ _ => some fn
  | _ => none

/-- A call through the null pointer. -/
def Event.isNullCall (e : Event) : Bool :=
  e.calledPtr == some 0

/-- An observed run: the events, and the exit code `main` returned. `exit` is
`none` when the run reached a call through a null function pointer: the behaviour
is undefined from there on and `main` is not known to return. -/
structure Run where
  events : List Event
  exit : Option Nat
deriving DecidableEq

/-- Run a straight-line sequence of steps and then `return code`. Calling through
a null function pointer is undefined behaviour: the attempted call is the last
event of the run. -/
def execute : List Event → Nat → Run
  | [], code => ⟨[], some code⟩
  | e :: es, code =>
    if e.isNullCall then ⟨[e], none⟩
    else ⟨e :: (execute es code).events, (execute es code).exit⟩

/-- Conversion of an integer to `uint16_t`: reduction modulo 2^16. -/
def toUInt16 (i : Int) : Nat :=
  (i % 65536).toNat

/-- Size of `uint16_t` in bytes. -/
def sizeof_uint16_t : Nat := 2

/-! ### `assets/test.cpp` -/

namespace AssetsHarness

/-- Line 7: the path given to `dlopen`. -/
def libraryPath : String := "../target/release/libweb_rwkv_ffi.dylib"

/-- Lines 13-15: the function-pointer types the resolved symbols are cast to. -/
def casts : List (String × FnPtrType) :=
  [ ("init", ⟨.void, [.uint64_t]⟩),
    ("load_with_rescale", ⟨.void, [cstring, .uintptr_t, .uintptr_t, .uintptr_t]⟩),
    ("infer", ⟨.uint16_t, [.ptr true .uint16_t, .uintptr_t, .struct "Sampler"]⟩) ]

/-- Line 19: `uint16_t prompt[]`. -/
def prompt : List Nat :=
  [102, 1, 1, 9, 2, 7, 8, 1, 3, 1, 132, 6, 1, 1, 3, 4, 1, 1, 1, 1, 132, 8, 7, 1, 1, 6, 5, 9,
   1, 2, 132, 9, 8, 1, 1, 5, 1, 1, 1, 1, 132, 1, 3, 1, 1, 1, 1, 1, 1, 1, 132, 1, 1, 5, 1, 1,
   4, 1, 10, 1, 132, 1, 1, 1, 1, 1, 1, 4, 8, 1, 132, 1, 5, 1, 1, 1, 1, 1, 9, 1, 132, 4, 2, 1,
   9, 1, 7, 10, 1, 5, 132, 103]

/-- Line 20: `struct Sampler sampler = {1.0, 1.0, 0}`. -/
def sampler : SamplerValue := ⟨1, 1, 0⟩

/-- Lines 23-26, with `n` iterations left: `output = infer(&output, 1, sampler)`
then `std::cout << output << ", "`. The pointer `&output` refers to the single
`uint16_t` object `output`; the value that comes back through the `uint16_t`
function type is a 16-bit value, hence the reduction modulo 2^16. -/
def loop {σ : Type} (E : Env σ) (infer : Nat) : Nat → σ → Nat → List Event
  | 0, _, _ => []
  | n + 1, s, output =>
    let r := E.infer s [output] 1 sampler
    let output2 := r.2 % 65536
    .infer infer [output] 1 sampler output2
      :: .cout (toString output2) :: .cout ", "
      :: loop E infer n r.1 output2

/-- The function `main` of `assets/test.cpp`. After the handle check the steps
are listed in program order, each with the values it has when every call before
it returned; `execute` ends the run at the first call through a null pointer.
The length argument of the first `infer` call is
`sizeof(prompt) / sizeof(uint16_t)`. -/
def main {σ : Type} (E : Env σ) : Run :=
  let handle := E.dlopen libraryPath
  if handle = 0 then
    ⟨[.dlopen libraryPath, .cerr "Cannot open library: ", .cerr E.dlerror, .cerr "\n"],
      some 1⟩
  else
    let init := E.dlsym handle "init"
    let load_with_rescale := E.dlsym handle "load_with_rescale"
    let infer := E.dlsym handle "infer"
    let s1 := E.init E.lib 0
    let s2 := E.load_with_rescale s1 "../rwkv-sudoku.st" 0 0 999
    let r := E.infer s2 prompt (prompt.length * sizeof_uint16_t / sizeof_uint16_t) sampler
    let output := r.2 % 65536
    execute
      ([.dlopen libraryPath,
        .dlsym handle "init", .dlsym handle "load_with_rescale", .dlsym handle "infer",
        .init init 0,
        .load_with_rescale load_with_rescale "../rwkv-sudoku.st" 0 0 999,
        .infer infer prompt (prompt.length * sizeof_uint16_t / sizeof_uint16_t) sampler output,
        .cout "output: [", .cout (toString output), .cout ", "]
        ++ loop E infer 20 r.1 output)
      0

end AssetsHarness

/-! ### `test/test.cpp` -/

namespace TestHarness

/-- Lines 12 and 22: the path given to `LoadLibrary` or `dlopen`. -/
def libraryPath (win32 : Bool) : String :=
  if win32 then "../target/release/web_rwkv_ffi.dll"
  else "../target/release/libweb_rwkv_ffi.dylib"

/-- Lines 18-20 and 28-30: the function-pointer types the resolved symbols are
cast to (the same in both branches). -/
def casts : List (String × FnPtrType) :=
  [ ("init", ⟨.void, [.uint64_t]⟩),
    ("load_with_rescale", ⟨.void, [cstring, .uintptr_t, .uintptr_t, .uintptr_t]⟩),
    ("infer", ⟨.uint16_t, [.ptr true .uint16_t, .uintptr_t, .struct "Sampler"]⟩) ]

/-- Number of arguments at each call site: `init(0)` (line 34),
`load_with_rescale(path, 0, 0, 999)` (line 35), `infer(prompt.data(),
prompt.size(), sampler)` (line 41) and `infer(&output, 1, sampler)` (line 44). -/
def callSites : List (String × Nat) :=
  [("init", 1), ("load_with_rescale", 4), ("infer", 3), ("infer", 3)]

/-- Line 37. -/
def prompt_str : String := "The Eiffel Tower is in the city of"

/-- Line 40: `struct Sampler sampler = {1.0, 1.0, 0}`. -/
def sampler : SamplerValue := ⟨1, 1, 0⟩

/-- Lines 43-46, with `n` iterations left: `output = infer(&output, 1, sampler)`
then `std::cout << tokenizer.decode({output})`. -/
def loop {σ : Type} (E : Env σ) (tokenizer : Tokenizer) (infer : Nat) :
    Nat → σ → Nat → List Event
  | 0, _, _ => []
  | n + 1, s, output =>
    let r := E.infer s [output] 1 sampler
    let output2 := r.2 % 65536
    .infer infer [output] 1 sampler output2
      :: .cout (tokenizer.decode [(output2 : Int)])
      :: loop E tokenizer infer n r.1 output2

/-- The function `main` of `test/test.cpp`, both branches of `#ifdef _WIN32`:
they differ in the library path and in what follows the `Cannot open library`
message. `prompt` is the `std::vector<uint16_t>` built from the encoded ids, each
converted to `uint16_t`; the first `infer` call passes `prompt.data()` and
`prompt.size()`. -/
def main {σ : Type} (E : Env σ) : Run :=
  let path := libraryPath E.win32
  let handle := E.dlopen path
  if handle = 0 then
    ⟨[.dlopen path, .cerr "Cannot open library: ",
      .cerr (if E.win32 then toString E.GetLastError else E.dlerror), .cerr "\n"],
      some 1⟩
  else
    let init := E.dlsym handle "init"
    let load_with_rescale := E.dlsym handle "load_with_rescale"
    let infer := E.dlsym handle "infer"
    let tokenizer := E.TRIE_TOKENIZER "b_rwkv_vocab_v20230424.txt"
    let s1 := E.init E.lib 0
    let s2 :=
      E.load_with_rescale s1 "../RWKV-x070-World-0.1B-v2.8-20241210-ctx4096.st" 0 0 999
    let prompt_ids := tokenizer.encode prompt_str
    let prompt := prompt_ids.map toUInt16
    let r := E.infer s2 prompt prompt.length sampler
    let output := r.2 % 65536
    execute
      ([.dlopen path,
        .dlsym handle "init", .dlsym handle "load_with_rescale", .dlsym handle "infer",
        .init init 0,
        .load_with_rescale load_with_rescale
          "../RWKV-x070-World-0.1B-v2.8-20241210-ctx4096.st" 0 0 999,
        .infer infer prompt prompt.length sampler output,
        .cout prompt_str, .cout "["]
        ++ loop E tokenizer infer 20 r.1 output)
      0

end TestHarness

/-! ## Observations on a run -/

/-- The record of one `infer` call: the pointer called through, the array the
`tokens` argument points into, the `len` argument, the sampler, the returned
token. -/
structure InferCall where
  fn : Nat
  tokens : List Nat
  len : Nat
  sampler : SamplerValue
  ret : Nat
deriving DecidableEq

/-- The `infer` call an event is, if it is one. -/
def Event.inferCall? : Event → Option InferCall
  | .infer fn tokens len sampler ret => some ⟨fn, tokens, len, sampler, ret⟩
  | _ => none

/-- The text an event writes to standard output, if it writes there. -/
def Event.coutText? : Event → Option String
  | .cout text => some text
  | _ => none

/-- The text an event writes to standard error, if it writes there. -/
def Event.cerrText? : Event → Option String
  | .cerr text => some text
  | _ => none

/-- The symbol an event looks up, if it is a lookup. -/
def Event.lookup? : Event → Option String
  | .dlsym _ symbol => some symbol
  | _ => none

/-- The seed an event passes to `init`, if it is a call of `init`. -/
def Event.initSeed? : Event → Option Nat
  | .init _ seed => some seed
  | _ => none

/-- The `infer` calls of a run, in order. -/
def Run.inferCalls (r : Run) : List InferCall :=
  r.events.filterMap Event.inferCall?

/-- The function pointers the run calls through, one per library call, in order. -/
def Run.calledPtrs (r : Run) : List Nat :=
  r.events.filterMap Event.calledPtr

/-- The pieces of text written to standard output, in order. -/
def Run.stdout (r : Run) : List String :=
  r.events.filterMap Event.coutText?

/-- The pieces of text written to standard error, in order. -/
def Run.stderr (r : Run) : List String :=
  r.events.filterMap Event.cerrText?

/-- The symbols looked up, in order. -/
def Run.lookups (r : Run) : List String :=
  r.events.filterMap Event.lookup?

/-- The library loads for a harness that opens `path`: the handle is non-null and
the three symbols the harness asks for resolve to functions of the library. -/
def Env.Loads {σ : Type} (E : Env σ) (path : String) : Prop :=
  E.dlopen path ≠ 0 ∧
  E.dlsym (E.dlopen path) "init" ≠ 0 ∧
  E.dlsym (E.dlopen path) "load_with_rescale" ≠ 0 ∧
  E.dlsym (E.dlopen path) "infer" ≠ 0

/-- Every call of the list after the first one passes the one-token array holding
the value the call before it returned (`prev` for the first), with `len = 1` and
the sampler `s`. -/
def FedBack (s : SamplerValue) : Nat → List InferCall → Prop
  | _, [] => True
  | prev, c :: cs => c.tokens = [prev] ∧ c.len = 1 ∧ c.sampler = s ∧ FedBack s c.ret cs

/-- What a harness does once the handle is non-null, in terms of the three
pointers `pInit`, `pLoad`, `pInfer` that the lookups returned: it looks the three
symbols up, writes nothing to standard error, and calls through each pointer in
turn whatever its value. A null pointer is called through like any other, which
ends the run there without an exit code; when none is null the run makes its 23
calls and returns 0. -/
def CallsUnchecked (pInit pLoad pInfer : Nat) (r : Run) : Prop :=
  r.lookups = ["init", "load_with_rescale", "infer"] ∧
  r.stderr = [] ∧
  r.calledPtrs =
    (if pInit = 0 then [pInit]
     else if pLoad = 0 then [pInit, pLoad]
     else if pInfer = 0 then [pInit, pLoad, pInfer]
     else pInit :: pLoad :: List.replicate 21 pInfer) ∧
  r.exit = if pInit = 0 ∨ pLoad = 0 ∨ pInfer = 0 then none else some 0

namespace Contract

/-- The operations of the contract's table, by the role they play in the
lifecycle: `load` is any of the `load*` variants, `infer` any of `infer*`,
`state_op` any of `clear_state`, `get_state`, `set_state`. -/
inductive Op where
  | init
  | seed
  | load
  | release
  | infer
  | state_op
deriving DecidableEq, Repr

/-- The lifecycle states: before `init`, and the contract's Unloaded and Loaded. -/
inductive Phase where
  | Uninitialised
  | Unloaded
  | Loaded
deriving DecidableEq, Repr

/-- One step of the lifecycle, `none` when the contract does not allow the
operation in the state: `init` must come before any other operation; a load makes
or replaces the runtime; `release` unloads; `infer*` and state operations are
valid only in Loaded. -/
def step : Phase → Op → Option Phase
  | .Uninitialised, .init => some .Unloaded
  | .Uninitialised, _ => none
  | p, .init => some p
  | p, .seed => some p
  | _, .load => some .Loaded
  | _, .release => some .Unloaded
  | .Loaded, .infer => some .Loaded
  | .Loaded, .state_op => some .Loaded
  | .Unloaded, .infer => none
  | .Unloaded, .state_op => none

/-- Run the lifecycle over a sequence of operations. -/
def lifecycle : Phase → List Op → Option Phase
  | p, [] => some p
  | p, op :: ops =>
    match step p op with
    | some q => lifecycle q ops
    | none => none

/-- Section 3: a sampler must satisfy `temperature > 0` and `top_p` in `(0, 1]`;
`top_k = 0` means no cap, so `top_k` is unconstrained. -/
def SamplerValid (s : SamplerValue) : Prop :=
  0 < s.temp ∧ 0 < s.top_p ∧ s.top_p ≤ 1

end Contract

/-- The contract operation a library call is. -/
def Event.op? : Event → Option Contract.Op
  | .init _ _ => some .init
  | .load_with_rescale _ _ _ _ _ => some .load
  | .infer _ _ _ _ _ => some .infer
  | _ => none

/-- The contract operations of a run, in order. -/
def Run.ops (r : Run) : List Contract.Op :=
  r.events.filterMap Event.op?

/-- An environment in which everything resolves: the library counts the calls
made into it and `infer` returns that count; the tokenizer encodes a string as
its character codes. -/
def sampleEnv : Env Nat where
  win32 := false
  dlopen := fun _ => 1
  dlerror := ""
  GetLastError := 0
  dlsym := fun _ symbol => symbol.length
  lib := 0
  init := fun s _ => s + 1
  load_with_rescale := fun s _ _ _ _ => s + 1
  infer := fun s _ _ _ => (s + 1, s)
  TRIE_TOKENIZER := fun _ =>
    ⟨fun text => text.toList.map fun c => (c.toNat : Int), fun ids => toString ids⟩

/-! ## Lemmas on runs -/

theorem execute_of_no_null_call (evs : List Event) (code : Nat)
    (h : ∀ e ∈ evs, e.isNullCall = false) : execute evs code = ⟨evs, some code⟩ := by
  induction evs with
  | nil => rfl
  | cons e es ih =>
    have he : e.isNullCall = false := h e (List.mem_cons_self _ _)
    have hes : ∀ x ∈ es, x.isNullCall = false := fun x hx => h x (List.mem_cons_of_mem _ hx)
    simp [execute, he, ih hes]

theorem fedBack_step (s : SamplerValue) :
    ∀ (cs : List InferCall) (c0 : InferCall), FedBack s c0.ret cs →
      ∀ (k : Nat) (c d : InferCall), (c0 :: cs)[k]? = some c → (c0 :: cs)[k + 1]? = some d →
        d.tokens = [c.ret] ∧ d.len = 1 ∧ d.sampler = s := by
  intro cs
  induction cs with
  | nil => intro c0 _ k c d _ hd; simp at hd
  | cons c1 cs ih =>
    intro c0 h k c d hc hd
    obtain ⟨h1, h2, h3, h4⟩ := h
    cases k with
    | zero =>
      simp at hc hd
      subst hc hd
      exact ⟨h1, h2, h3⟩
    | succ k =>
      rw [List.getElem?_cons_succ] at hc hd
      exact ih c1 h4 k c d hc hd

namespace AssetsHarness

theorem assets_loop_no_null_call {σ : Type} (E : Env σ) (p : Nat) (hp : p ≠ 0) :
    ∀ (n : Nat) (s : σ) (o : Nat), ∀ e ∈ loop E p n s o, e.isNullCall = false := by
  intro n
  induction n with
  | zero => intro s o e he; simp [loop] at he
  | succ n ih =>
    intro s o e he
    simp only [loop, List.mem_cons] at he
    rcases he with rfl | rfl | rfl | he
    · simp [Event.isNullCall, Event.calledPtr, hp]
    · rfl
    · rfl
    · exact ih _ _ e he

theorem assets_loop_inferCalls {σ : Type} (E : Env σ) (p : Nat) :
    ∀ (n : Nat) (s : σ) (o : Nat),
      ((loop E p n s o).filterMap Event.inferCall?).length = n ∧
      FedBack sampler o ((loop E p n s o).filterMap Event.inferCall?) := by
  intro n
  induction n with
  | zero => intro s o; simp [loop, FedBack]
  | succ n ih =>
    intro s o
    obtain ⟨h1, h2⟩ := ih (E.infer s [o] 1 sampler).1 ((E.infer s [o] 1 sampler).2 % 65536)
    simp only [loop, List.filterMap_cons, Event.inferCall?, List.length_cons, FedBack]
    exact ⟨by rw [h1], by simp, by simp, by simp, h2⟩

theorem assets_loop_ops {σ : Type} (E : Env σ) (p : Nat) :
    ∀ (n : Nat) (s : σ) (o : Nat),
      (loop E p n s o).filterMap Event.op? = List.replicate n Contract.Op.infer := by
  intro n
  induction n with
  | zero => intro s o; simp [loop]
  | succ n ih =>
    intro s o
    simp only [loop, List.filterMap_cons, Event.op?, List.replicate_succ, ih]

theorem assets_main_of_loads {σ : Type} (E : Env σ) (h : E.Loads libraryPath) :
    main E =
      ⟨[.dlopen libraryPath,
        .dlsym (E.dlopen libraryPath) "init",
        .dlsym (E.dlopen libraryPath) "load_with_rescale",
        .dlsym (E.dlopen libraryPath) "infer",
        .init (E.dlsym (E.dlopen libraryPath) "init") 0,
        .load_with_rescale (E.dlsym (E.dlopen libraryPath) "load_with_rescale")
          "../rwkv-sudoku.st" 0 0 999,
        .infer (E.dlsym (E.dlopen libraryPath) "infer") prompt 92 sampler
          ((E.infer (E.load_with_rescale (E.init E.lib 0) "../rwkv-sudoku.st" 0 0 999)
            prompt 92 sampler).2 % 65536),
        .cout "output: [",
        .cout (toString ((E.infer (E.load_with_rescale (E.init E.lib 0)
          "../rwkv-sudoku.st" 0 0 999) prompt 92 sampler).2 % 65536)),
        .cout ", "]
        ++ loop E (E.dlsym (E.dlopen libraryPath) "infer") 20
          (E.infer (E.load_with_rescale (E.init E.lib 0) "../rwkv-sudoku.st" 0 0 999)
            prompt 92 sampler).1
          ((E.infer (E.load_with_rescale (E.init E.lib 0) "../rwkv-sudoku.st" 0 0 999)
            prompt 92 sampler).2 % 65536),
       some 0⟩ := by
  obtain ⟨h0, h1, h2, h3⟩ := h
  have hlen : prompt.length * sizeof_uint16_t / sizeof_uint16_t = 92 := by decide
  unfold main
  simp only [h0, if_false, hlen]
  apply execute_of_no_null_call
  intro e he
  simp only [List.cons_append, List.nil_append, List.mem_cons] at he
  rcases he with rfl | rfl | rfl | rfl | rfl | rfl | rfl | rfl | rfl | rfl | he
  all_goals first
    | rfl
    | (simp [Event.isNullCall, Event.calledPtr, h1, h2, h3]; done)
    | exact assets_loop_no_null_call E _ h3 _ _ _ e he

end AssetsHarness

namespace TestHarness

theorem test_loop_no_null_call {σ : Type} (E : Env σ) (t : Tokenizer) (p : Nat) (hp : p ≠ 0) :
    ∀ (n : Nat) (s : σ) (o : Nat), ∀ e ∈ loop E t p n s o, e.isNullCall = false := by
  intro n
  induction n with
  | zero => intro s o e he; simp [loop] at he
  | succ n ih =>
    intro s o e he
    simp only [loop, List.mem_cons] at he
    rcases he with rfl | rfl | he
    · simp [Event.isNullCall, Event.calledPtr, hp]
    · rfl
    · exact ih _ _ e he

theorem test_loop_inferCalls {σ : Type} (E : Env σ) (t : Tokenizer) (p : Nat) :
    ∀ (n : Nat) (s : σ) (o : Nat),
      ((loop E t p n s o).filterMap Event.inferCall?).length = n ∧
      FedBack sampler o ((loop E t p n s o).filterMap Event.inferCall?) := by
  intro n
  induction n with
  | zero => intro s o; simp [loop, FedBack]
  | succ n ih =>
    intro s o
    obtain ⟨h1, h2⟩ := ih (E.infer s [o] 1 sampler).1 ((E.infer s [o] 1 sampler).2 % 65536)
    simp only [loop, List.filterMap_cons, Event.inferCall?, List.length_cons, FedBack]
    exact ⟨by rw [h1], by simp, by simp, by simp, h2⟩

theorem test_loop_ops {σ : Type} (E : Env σ) (t : Tokenizer) (p : Nat) :
    ∀ (n : Nat) (s : σ) (o : Nat),
      (loop E t p n s o).filterMap Event.op? = List.replicate n Contract.Op.infer := by
  intro n
  induction n with
  | zero => intro s o; simp [loop]
  | succ n ih =>
    intro s o
    simp only [loop, List.filterMap_cons, Event.op?, List.replicate_succ, ih]

theorem test_loop_stdout {σ : Type} (E : Env σ) (t : Tokenizer) (p : Nat) :
    ∀ (n : Nat) (s : σ) (o : Nat),
      (loop E t p n s o).filterMap Event.coutText? =
        ((loop E t p n s o).filterMap Event.inferCall?).map
          fun c => t.decode [(c.ret : Int)] := by
  intro n
  induction n with
  | zero => intro s o; simp [loop]
  | succ n ih =>
    intro s o
    simp only [loop, List.filterMap_cons, Event.coutText?, Event.inferCall?, List.map_cons, ih]

theorem test_main_of_loads {σ : Type} (E : Env σ) (h : E.Loads (libraryPath E.win32)) :
    main E =
      ⟨[.dlopen (libraryPath E.win32),
        .dlsym (E.dlopen (libraryPath E.win32)) "init",
        .dlsym (E.dlopen (libraryPath E.win32)) "load_with_rescale",
        .dlsym (E.dlopen (libraryPath E.win32)) "infer",
        .init (E.dlsym (E.dlopen (libraryPath E.win32)) "init") 0,
        .load_with_rescale (E.dlsym (E.dlopen (libraryPath E.win32)) "load_with_rescale")
          "../RWKV-x070-World-0.1B-v2.8-20241210-ctx4096.st" 0 0 999,
        .infer (E.dlsym (E.dlopen (libraryPath E.win32)) "infer")
          (((E.TRIE_TOKENIZER "b_rwkv_vocab_v20230424.txt").encode prompt_str).map toUInt16)
          (((E.TRIE_TOKENIZER "b_rwkv_vocab_v20230424.txt").encode prompt_str).map
            toUInt16).length
          sampler
          ((E.infer (E.load_with_rescale (E.init E.lib 0)
              "../RWKV-x070-World-0.1B-v2.8-20241210-ctx4096.st" 0 0 999)
            (((E.TRIE_TOKENIZER "b_rwkv_vocab_v20230424.txt").encode prompt_str).map toUInt16)
            (((E.TRIE_TOKENIZER "b_rwkv_vocab_v20230424.txt").encode prompt_str).map
              toUInt16).length
            sampler).2 % 65536),
        .cout prompt_str, .cout "["]
        ++ loop E (E.TRIE_TOKENIZER "b_rwkv_vocab_v20230424.txt")
          (E.dlsym (E.dlopen (libraryPath E.win32)) "infer") 20
          (E.infer (E.load_with_rescale (E.init E.lib 0)
              "../RWKV-x070-World-0.1B-v2.8-20241210-ctx4096.st" 0 0 999)
            (((E.TRIE_TOKENIZER "b_rwkv_vocab_v20230424.txt").encode prompt_str).map toUInt16)
            (((E.TRIE_TOKENIZER "b_rwkv_vocab_v20230424.txt").encode prompt_str).map
              toUInt16).length
            sampler).1
          ((E.infer (E.load_with_rescale (E.init E.lib 0)
              "../RWKV-x070-World-0.1B-v2.8-20241210-ctx4096.st" 0 0 999)
            (((E.TRIE_TOKENIZER "b_rwkv_vocab_v20230424.txt").encode prompt_str).map toUInt16)
            (((E.TRIE_TOKENIZER "b_rwkv_vocab_v20230424.txt").encode prompt_str).map
              toUInt16).length
            sampler).2 % 65536),
       some 0⟩ := by
  obtain ⟨h0, h1, h2, h3⟩ := h
  unfold main
  simp only [h0, if_false]
  apply execute_of_no_null_call
  intro e he
  simp only [List.cons_append, List.nil_append, List.mem_cons] at he
  rcases he with rfl | rfl | rfl | rfl | rfl | rfl | rfl | rfl | rfl | he
  all_goals first
    | rfl
    | (simp [Event.isNullCall, Event.calledPtr, h1, h2, h3]; done)
    | exact test_loop_no_null_call E _ _ h3 _ _ _ e he

end TestHarness

/-! ## The interface: headers against the contract -/

open CType

/-- C1 as stated fails: the current header and the export list of section 6 are
not the same interface. The second parameter of `infer_raw_last_batch` is
`uintptr_t *` in the header and `const word *` in the list. -/
theorem exports_differ_in_const_of_lens :
    (lookupDecl CurrentHeader.decls "infer_raw_last_batch").map FnDecl.paramTypes =
      some [ptr false (ptr true uint32_t), ptr false uintptr_t, uintptr_t] ∧
    (lookupDecl Contract.exports "infer_raw_last_batch").map FnDecl.paramTypes =
      some [ptr false (ptr true uint32_t), ptr true uintptr_t, uintptr_t] ∧
    ¬ Contract.SameInterface CurrentHeader.decls Contract.exports := by
  decide

/-- C1, amended: the current header and the export list of section 6 name the
same 18 functions in the same order; for each of them the return type and the
number of parameters are identical, and so is every parameter type, except for
the second parameter of `infer_raw_last_batch` and of `infer_raw_all_batch`,
which is a pointer to a non-const word in the header and a pointer to a const
word in the list (the same type once const is erased). -/
theorem exports_agree_up_to_const_of_lens :
    CurrentHeader.decls.length = 18 ∧ Contract.exports.length = 18 ∧
    (CurrentHeader.decls.map FnDecl.name).Nodup ∧
    CurrentHeader.decls.map FnDecl.name = Contract.exports.map FnDecl.name ∧
    ∀ d ∈ CurrentHeader.decls, ∀ e ∈ Contract.exports, d.name = e.name →
      d.ret = e.ret ∧ d.params.length = e.params.length ∧
      d.paramTypes.map CType.eraseConst = e.paramTypes.map CType.eraseConst ∧
      (if d.name = "infer_raw_last_batch" ∨ d.name = "infer_raw_all_batch" then
        d.paramTypes = [ptr false (ptr true uint32_t), ptr false uintptr_t, uintptr_t] ∧
        e.paramTypes = [ptr false (ptr true uint32_t), ptr true uintptr_t, uintptr_t]
      else d.paramTypes = e.paramTypes) := by
  decide

/-- C2: each of the five structs of the current header has the fields section 3
enumerates, in the same order and with the same widths: Sampler is (float32,
float32, word); ModelOutput is (word len, pointer to float32); ModelOutputBatch
is ModelOutput's fields with one added word-sized field `batch`; ModelInfoOutput
is the six word-sized fields version, num_layer, num_hidden, num_emb, num_vocab,
num_head in that order; StateRaw is (word len, pointer to float32). -/
theorem structs_match_contract :
    CurrentHeader.structs.map StructDecl.tag =
      ["Sampler", "ModelOutput", "ModelOutputBatch", "ModelInfoOutput", "StateRaw"] ∧
    CurrentHeader.Sampler.fieldTypes = [float, float, uintptr_t] ∧
    CurrentHeader.Sampler.fieldTypes = Contract.Sampler.fieldTypes ∧
    CurrentHeader.ModelOutput.fields = [⟨uintptr_t, "len"⟩, ⟨ptr false float, "logits"⟩] ∧
    CurrentHeader.ModelOutput.fields = Contract.ModelOutput.fields ∧
    CurrentHeader.ModelOutputBatch.fields.length = CurrentHeader.ModelOutput.fields.length + 1 ∧
    CurrentHeader.ModelOutputBatch.fields.erase ⟨uintptr_t, "batch"⟩ =
      CurrentHeader.ModelOutput.fields ∧
    (⟨uintptr_t, "batch"⟩ : Param) ∈ CurrentHeader.ModelOutputBatch.fields ∧
    CurrentHeader.ModelInfoOutput.fieldNames =
      ["version", "num_layer", "num_hidden", "num_emb", "num_vocab", "num_head"] ∧
    CurrentHeader.ModelInfoOutput.fieldNames = Contract.ModelInfoOutputFields ∧
    (∀ f ∈ CurrentHeader.ModelInfoOutput.fields, f.ty = uintptr_t) ∧
    CurrentHeader.StateRaw.fields = [⟨uintptr_t, "len"⟩, ⟨ptr false float, "state"⟩] ∧
    CurrentHeader.StateRaw.fields = Contract.StateRaw.fields := by
  decide

/-- C3: on a platform whose word is 4 or 8 bytes, each of the five structs of the
current header, laid out in declaration order under natural alignment, has no
padding: every field's offset is the sum of the sizes of the fields before it
and the struct size is the sum of the field sizes, namely Sampler 8 + w,
ModelOutput 2w, ModelOutputBatch 3w, ModelInfoOutput 6w, StateRaw 2w. -/
theorem structs_have_no_padding (w : Nat) (hw : w = 4 ∨ w = 8) :
    (∀ s ∈ CurrentHeader.structs, NoPadding w s) ∧
    structSize w CurrentHeader.Sampler = some (8 + w) ∧
    structSize w CurrentHeader.ModelOutput = some (2 * w) ∧
    structSize w CurrentHeader.ModelOutputBatch = some (3 * w) ∧
    structSize w CurrentHeader.ModelInfoOutput = some (6 * w) ∧
    structSize w CurrentHeader.StateRaw = some (2 * w) := by
  rcases hw with rfl | rfl <;> decide

/-- Witness of C3 on a 64-bit platform. -/
theorem structs_have_no_padding_on_64_bit :
    (∀ s ∈ CurrentHeader.structs, NoPadding 8 s) ∧
    structSize 8 CurrentHeader.Sampler = some (8 + 8) ∧
    structSize 8 CurrentHeader.ModelOutput = some (2 * 8) ∧
    structSize 8 CurrentHeader.ModelOutputBatch = some (3 * 8) ∧
    structSize 8 CurrentHeader.ModelInfoOutput = some (6 * 8) ∧
    structSize 8 CurrentHeader.StateRaw = some (2 * 8) :=
  structs_have_no_padding 8 (Or.inr rfl)

/-- C4 fails on the code: `test/test.cpp` casts the three symbols to the
function types of the older header, as `assets/test.cpp` does next to that
header. Against the current header only `init` agrees: `load_with_rescale` is declared with 7 parameters and cast to, and
called with, 4; `infer` is declared over `uint32_t` tokens and cast to a
function over `uint16_t` tokens. -/
theorem test_harness_casts_follow_older_header :
    (∀ c ∈ TestHarness.casts,
      (lookupDecl OlderHeader.decls c.1).map FnDecl.fnType = some c.2) ∧
    (∀ c ∈ AssetsHarness.casts,
      (lookupDecl OlderHeader.decls c.1).map FnDecl.fnType = some c.2) ∧
    (TestHarness.casts.filter fun c =>
        (lookupDecl CurrentHeader.decls c.1).map FnDecl.fnType ≠ some c.2).map Prod.fst =
      ["load_with_rescale", "infer"] ∧
    (lookupDecl CurrentHeader.decls "load_with_rescale").map (fun d => d.params.length) =
      some 7 ∧
    (TestHarness.casts.lookup "load_with_rescale").map (fun t => t.params.length) = some 4 ∧
    TestHarness.callSites.lookup "load_with_rescale" = some 4 ∧
    (lookupDecl CurrentHeader.decls "infer").map FnDecl.fnType =
      some ⟨uint32_t, [ptr true uint32_t, uintptr_t, struct "Sampler"]⟩ ∧
    TestHarness.casts.lookup "infer" =
      some ⟨uint16_t, [ptr true uint16_t, uintptr_t, struct "Sampler"]⟩ := by
  decide

/-- C5: in the older header `infer` takes and returns 16-bit token ids and no
function has a `batch` parameter (`load` has 3 parameters, `load_with_rescale` 4,
`clear_state` none); in the current header `infer` takes and returns 32-bit token
ids and each of `load`, `load_prefab`, `load_extended`, `load_with_rescale` and
`clear_state` has a word-sized parameter `batch` as its last parameter. -/
theorem headers_differ_in_token_width_and_batch :
    (lookupDecl OlderHeader.decls "infer").map FnDecl.fnType =
      some ⟨uint16_t, [ptr true uint16_t, uintptr_t, struct "Sampler"]⟩ ∧
    (∀ d ∈ OlderHeader.decls, ∀ q ∈ d.params, q.name ≠ "batch") ∧
    (lookupDecl OlderHeader.decls "load").map (fun d => d.params.length) = some 3 ∧
    (lookupDecl OlderHeader.decls "load_with_rescale").map (fun d => d.params.length) =
      some 4 ∧
    (lookupDecl OlderHeader.decls "clear_state").map (fun d => d.params.length) = some 0 ∧
    (lookupDecl CurrentHeader.decls "infer").map FnDecl.fnType =
      some ⟨uint32_t, [ptr true uint32_t, uintptr_t, struct "Sampler"]⟩ ∧
    ∀ name ∈ ["load", "load_prefab", "load_extended", "load_with_rescale", "clear_state"],
      (lookupDecl CurrentHeader.decls name).bind (fun d => d.params.getLast?) =
        some ⟨uintptr_t, "batch"⟩ := by
  decide

/-! ## The harnesses -/

theorem fedBack_all (s : SamplerValue) :
    ∀ (cs : List InferCall) (prev : Nat), FedBack s prev cs →
      ∀ c ∈ cs, c.len = 1 ∧ c.tokens.length = 1 ∧ c.sampler = s := by
  intro cs
  induction cs with
  | nil => intro _ _ c hc; simp at hc
  | cons c1 cs ih =>
    intro prev h c hc
    obtain ⟨h1, h2, h3, h4⟩ := h
    rcases List.mem_cons.mp hc with rfl | hc
    · exact ⟨h2, by rw [h1]; rfl, h3⟩
    · exact ih c1.ret h4 c hc

theorem lifecycle_of_harness_ops :
    Contract.lifecycle .Uninitialised
        (.init :: .load :: List.replicate 21 Contract.Op.infer) = some .Loaded ∧
    ∀ k, (Contract.Op.init :: .load :: List.replicate 21 Contract.Op.infer)[k]? = some .infer →
      Contract.lifecycle .Uninitialised
        ((Contract.Op.init :: .load :: List.replicate 21 Contract.Op.infer).take k) =
          some .Loaded := by
  refine ⟨by decide, ?_⟩
  intro k hk
  have hlt : k < 23 := by
    by_contra hge
    have : (Contract.Op.init :: .load :: List.replicate 21 Contract.Op.infer)[k]? = none := by
      apply List.getElem?_eq_none
      simp
      omega
    rw [this] at hk
    cases hk
  revert hk
  revert k
  decide

theorem AssetsHarness.assets_main_inferCalls {σ : Type} (E : Env σ) (h : E.Loads libraryPath) :
    ∃ first rest, (main E).inferCalls = first :: rest ∧
      first.tokens = prompt ∧ first.len = 92 ∧ first.sampler = sampler ∧
      first.ret = (E.infer (E.load_with_rescale (E.init E.lib 0) "../rwkv-sudoku.st" 0 0 999)
        prompt 92 sampler).2 % 65536 ∧
      rest.length = 20 ∧ FedBack sampler first.ret rest := by
  rw [assets_main_of_loads E h]
  obtain ⟨h1, h2⟩ := assets_loop_inferCalls E (E.dlsym (E.dlopen libraryPath) "infer") 20
    (E.infer (E.load_with_rescale (E.init E.lib 0) "../rwkv-sudoku.st" 0 0 999)
      prompt 92 sampler).1
    ((E.infer (E.load_with_rescale (E.init E.lib 0) "../rwkv-sudoku.st" 0 0 999)
      prompt 92 sampler).2 % 65536)
  refine ⟨⟨E.dlsym (E.dlopen libraryPath) "infer", prompt, 92, sampler,
    (E.infer (E.load_with_rescale (E.init E.lib 0) "../rwkv-sudoku.st" 0 0 999)
      prompt 92 sampler).2 % 65536⟩, _, ?_, rfl, rfl, rfl, rfl, h1, h2⟩
  simp only [Run.inferCalls, List.cons_append, List.nil_append, List.filterMap_cons,
    Event.inferCall?]

theorem TestHarness.test_main_inferCalls {σ : Type} (E : Env σ)
    (h : E.Loads (libraryPath E.win32)) :
    ∃ first rest, (main E).inferCalls = first :: rest ∧
      first.tokens =
        ((E.TRIE_TOKENIZER "b_rwkv_vocab_v20230424.txt").encode prompt_str).map toUInt16 ∧
      first.len = ((E.TRIE_TOKENIZER "b_rwkv_vocab_v20230424.txt").encode prompt_str).length ∧
      first.sampler = sampler ∧
      rest.length = 20 ∧ FedBack sampler first.ret rest ∧
      (main E).stdout = prompt_str :: "[" ::
        rest.map fun c => (E.TRIE_TOKENIZER "b_rwkv_vocab_v20230424.txt").decode [(c.ret : Int)] := by
  rw [test_main_of_loads E h]
  obtain ⟨h1, h2⟩ := test_loop_inferCalls E (E.TRIE_TOKENIZER "b_rwkv_vocab_v20230424.txt")
    (E.dlsym (E.dlopen (libraryPath E.win32)) "infer") 20
    (E.infer (E.load_with_rescale (E.init E.lib 0)
        "../RWKV-x070-World-0.1B-v2.8-20241210-ctx4096.st" 0 0 999)
      (((E.TRIE_TOKENIZER "b_rwkv_vocab_v20230424.txt").encode prompt_str).map toUInt16)
      (((E.TRIE_TOKENIZER "b_rwkv_vocab_v20230424.txt").encode prompt_str).map toUInt16).length
      sampler).1
    ((E.infer (E.load_with_rescale (E.init E.lib 0)
        "../RWKV-x070-World-0.1B-v2.8-20241210-ctx4096.st" 0 0 999)
      (((E.TRIE_TOKENIZER "b_rwkv_vocab_v20230424.txt").encode prompt_str).map toUInt16)
      (((E.TRIE_TOKENIZER "b_rwkv_vocab_v20230424.txt").encode prompt_str).map toUInt16).length
      sampler).2 % 65536)
  refine ⟨⟨E.dlsym (E.dlopen (libraryPath E.win32)) "infer",
    ((E.TRIE_TOKENIZER "b_rwkv_vocab_v20230424.txt").encode prompt_str).map toUInt16,
    (((E.TRIE_TOKENIZER "b_rwkv_vocab_v20230424.txt").encode prompt_str).map toUInt16).length,
    sampler,
    (E.infer (E.load_with_rescale (E.init E.lib 0)
        "../RWKV-x070-World-0.1B-v2.8-20241210-ctx4096.st" 0 0 999)
      (((E.TRIE_TOKENIZER "b_rwkv_vocab_v20230424.txt").encode prompt_str).map toUInt16)
      (((E.TRIE_TOKENIZER "b_rwkv_vocab_v20230424.txt").encode prompt_str).map toUInt16).length
      sampler).2 % 65536⟩, _, ?_, rfl, ?_, rfl, h1, h2, ?_⟩
  · simp only [Run.inferCalls, List.cons_append, List.nil_append, List.filterMap_cons,
      Event.inferCall?]
  · simp
  · simp only [Run.stdout, List.cons_append, List.nil_append, List.filterMap_cons,
      Event.coutText?, test_loop_stdout]

/-- C6: in both harnesses, when the library loads, the calls into the library
follow the lifecycle: `init` is called once and first, one load call
(`load_with_rescale`) follows it, and the 21 `infer` calls all come after it with
no release in between; the contract's lifecycle accepts the sequence, and the
state before every `infer` is Loaded. -/
theorem harness_calls_respect_lifecycle {σ : Type} (E : Env σ)
    (ha : E.Loads AssetsHarness.libraryPath)
    (ht : E.Loads (TestHarness.libraryPath E.win32)) :
    ((AssetsHarness.main E).ops = .init :: .load :: List.replicate 21 Contract.Op.infer ∧
      Contract.lifecycle .Uninitialised (AssetsHarness.main E).ops = some .Loaded ∧
      ∀ k, (AssetsHarness.main E).ops[k]? = some .infer →
        Contract.lifecycle .Uninitialised ((AssetsHarness.main E).ops.take k) = some .Loaded) ∧
    ((TestHarness.main E).ops = .init :: .load :: List.replicate 21 Contract.Op.infer ∧
      Contract.lifecycle .Uninitialised (TestHarness.main E).ops = some .Loaded ∧
      ∀ k, (TestHarness.main E).ops[k]? = some .infer →
        Contract.lifecycle .Uninitialised ((TestHarness.main E).ops.take k) = some .Loaded) := by
  have hA : (AssetsHarness.main E).ops =
      .init :: .load :: List.replicate 21 Contract.Op.infer := by
    rw [AssetsHarness.assets_main_of_loads E ha]
    simp only [Run.ops, List.cons_append, List.nil_append, List.filterMap_cons, Event.op?,
      AssetsHarness.assets_loop_ops]
    rfl
  have hT : (TestHarness.main E).ops =
      .init :: .load :: List.replicate 21 Contract.Op.infer := by
    rw [TestHarness.test_main_of_loads E ht]
    simp only [Run.ops, List.cons_append, List.nil_append, List.filterMap_cons, Event.op?,
      TestHarness.test_loop_ops]
    rfl
  rw [hA, hT]
  exact ⟨⟨rfl, lifecycle_of_harness_ops⟩, ⟨rfl, lifecycle_of_harness_ops⟩⟩

theorem fedBack_lens (s : SamplerValue) (cs : List InferCall) (prev : Nat)
    (h : FedBack s prev cs) : cs.map InferCall.len = List.replicate cs.length 1 := by
  have hall := fedBack_all s cs prev h
  clear h
  induction cs with
  | nil => rfl
  | cons c cs ih =>
    have hc := (hall c (List.mem_cons_self _ _)).1
    have hcs := ih fun x hx => hall x (List.mem_cons_of_mem _ hx)
    simp only [List.map_cons, List.length_cons, List.replicate_succ, hc, hcs]

theorem AssetsHarness.assets_loop_initSeed {σ : Type} (E : Env σ) (p : Nat) :
    ∀ (n : Nat) (s : σ) (o : Nat), (loop E p n s o).filterMap Event.initSeed? = [] := by
  intro n
  induction n with
  | zero => intro s o; simp [loop]
  | succ n ih =>
    intro s o
    simp only [loop, List.filterMap_cons, Event.initSeed?, ih]

/-- C7: every `infer` call of `assets/test.cpp` meets the precondition of
`infer`: `len` is at least 1 and equals the number of elements of the array the
`tokens` pointer refers to; it is 92 for the first call (the whole prompt array)
and 1 for each of the 20 later calls, whose array is the single token the call
before returned; for every library behaviour. -/
theorem assets_infer_calls_meet_precondition {σ : Type} (E : Env σ)
    (h : E.Loads AssetsHarness.libraryPath) :
    (AssetsHarness.main E).inferCalls.length = 21 ∧
    (∀ c ∈ (AssetsHarness.main E).inferCalls, 1 ≤ c.len ∧ c.len = c.tokens.length) ∧
    (AssetsHarness.main E).inferCalls.map InferCall.len = 92 :: List.replicate 20 1 ∧
    (AssetsHarness.main E).inferCalls.head?.map InferCall.tokens =
      some AssetsHarness.prompt ∧
    AssetsHarness.prompt.length = 92 ∧
    ∀ (k : Nat) (c d : InferCall), (AssetsHarness.main E).inferCalls[k]? = some c →
      (AssetsHarness.main E).inferCalls[k + 1]? = some d → d.tokens = [c.ret] ∧ d.len = 1 := by
  obtain ⟨first, rest, hcalls, htok, hlen, _, _, hrest, hfb⟩ :=
    AssetsHarness.assets_main_inferCalls E h
  have hp : AssetsHarness.prompt.length = 92 := by decide
  rw [hcalls]
  refine ⟨by simp [hrest], ?_, ?_, by simp [htok], hp, ?_⟩
  · intro c hc
    rcases List.mem_cons.mp hc with rfl | hc
    · rw [hlen, htok, hp]
      exact ⟨by decide, rfl⟩
    · obtain ⟨h1, h2, _⟩ := fedBack_all _ rest first.ret hfb c hc
      rw [h1, h2]
      exact ⟨Nat.le_refl 1, rfl⟩
  · rw [List.map_cons, hlen, fedBack_lens _ rest first.ret hfb, hrest]
  · intro k c d hc hd
    obtain ⟨h1, h2, _⟩ := fedBack_step _ rest first hfb k c d hc hd
    exact ⟨h1, h2⟩

/-- C9: `assets/test.cpp` supplies the inputs of the end-to-end scenario: `init`
is called once, with seed 0; the first `infer` call passes a prompt that starts
102, 1, 1, 9; every `infer` call passes the sampler (1.0, 1.0, 0), which is a
valid sampler (temperature > 0, 0 < top_p <= 1) with `top_k = 0`. -/
theorem assets_harness_supplies_scenario_inputs {σ : Type} (E : Env σ)
    (h : E.Loads AssetsHarness.libraryPath) :
    (AssetsHarness.main E).events.filterMap Event.initSeed? = [0] ∧
    (AssetsHarness.main E).inferCalls.head?.map (fun c => c.tokens.take 4) =
      some [102, 1, 1, 9] ∧
    ∀ c ∈ (AssetsHarness.main E).inferCalls,
      c.sampler = ⟨1, 1, 0⟩ ∧ c.sampler.top_k = 0 ∧ Contract.SamplerValid c.sampler := by
  obtain ⟨first, rest, hcalls, htok, _, hs, _, _, hfb⟩ :=
    AssetsHarness.assets_main_inferCalls E h
  have hvalid : Contract.SamplerValid AssetsHarness.sampler := by
    simp only [Contract.SamplerValid, AssetsHarness.sampler]
    norm_num
  refine ⟨?_, ?_, ?_⟩
  · rw [AssetsHarness.assets_main_of_loads E h]
    simp only [List.cons_append, List.nil_append, List.filterMap_cons, Event.initSeed?,
      AssetsHarness.assets_loop_initSeed]
  · rw [hcalls]
    simp only [List.head?_cons, Option.map_some', htok]
    rfl
  · intro c hc
    have hcs : c.sampler = AssetsHarness.sampler := by
      rw [hcalls] at hc
      rcases List.mem_cons.mp hc with rfl | hc
      · exact hs
      · exact (fedBack_all _ rest first.ret hfb c hc).2.2
    rw [hcs]
    exact ⟨rfl, rfl, hvalid⟩

/-- C10: for every behaviour of the library and of the tokenizer, when the
library loads, `test/test.cpp` makes exactly 21 `infer` calls: the first with the
encoded prompt, every id reduced modulo 2^16 and the length unchanged; each of
the 20 others with the one-token array holding the value the call before it
returned. It prints the prompt string, then `[`, then the decodings of the values
returned by calls 2 to 21 in order; the value the first call returned is fed
back but not printed. -/
theorem test_harness_feeds_back_and_prints {σ : Type} (E : Env σ)
    (h : E.Loads (TestHarness.libraryPath E.win32)) :
    (TestHarness.main E).inferCalls.length = 21 ∧
    (TestHarness.main E).inferCalls.head?.map InferCall.tokens =
      some (((E.TRIE_TOKENIZER "b_rwkv_vocab_v20230424.txt").encode
        "The Eiffel Tower is in the city of").map fun i => (i % 65536).toNat) ∧
    (TestHarness.main E).inferCalls.head?.map InferCall.len =
      some ((E.TRIE_TOKENIZER "b_rwkv_vocab_v20230424.txt").encode
        "The Eiffel Tower is in the city of").length ∧
    (∀ (k : Nat) (c d : InferCall), (TestHarness.main E).inferCalls[k]? = some c →
      (TestHarness.main E).inferCalls[k + 1]? = some d → d.tokens = [c.ret] ∧ d.len = 1) ∧
    (TestHarness.main E).stdout =
      "The Eiffel Tower is in the city of" :: "[" ::
        (TestHarness.main E).inferCalls.tail.map fun c =>
          (E.TRIE_TOKENIZER "b_rwkv_vocab_v20230424.txt").decode [(c.ret : Int)] := by
  obtain ⟨first, rest, hcalls, htok, hlen, _, hrest, hfb, hout⟩ :=
    TestHarness.test_main_inferCalls E h
  rw [hcalls, hout]
  refine ⟨by simp [hrest], ?_, ?_, ?_, rfl⟩
  · simp only [List.head?_cons, Option.map_some', htok]
    rfl
  · simp only [List.head?_cons, Option.map_some', hlen]
    rfl
  · intro k c d hc hd
    obtain ⟨h1, h2, _⟩ := fedBack_step _ rest first hfb k c d hc hd
    exact ⟨h1, h2⟩

theorem AssetsHarness.assets_loop_observations {σ : Type} (E : Env σ) (p : Nat) :
    ∀ (n : Nat) (s : σ) (o : Nat),
      (loop E p n s o).filterMap Event.lookup? = [] ∧
      (loop E p n s o).filterMap Event.cerrText? = [] ∧
      (loop E p n s o).filterMap Event.calledPtr = List.replicate n p := by
  intro n
  induction n with
  | zero => intro s o; simp [loop]
  | succ n ih =>
    intro s o
    obtain ⟨h1, h2, h3⟩ := ih (E.infer s [o] 1 sampler).1 ((E.infer s [o] 1 sampler).2 % 65536)
    simp only [loop, List.filterMap_cons, Event.lookup?, Event.cerrText?, Event.calledPtr,
      List.replicate_succ, h1, h2, h3, and_self]

theorem TestHarness.test_loop_observations {σ : Type} (E : Env σ) (t : Tokenizer) (p : Nat) :
    ∀ (n : Nat) (s : σ) (o : Nat),
      (loop E t p n s o).filterMap Event.lookup? = [] ∧
      (loop E t p n s o).filterMap Event.cerrText? = [] ∧
      (loop E t p n s o).filterMap Event.calledPtr = List.replicate n p := by
  intro n
  induction n with
  | zero => intro s o; simp [loop]
  | succ n ih =>
    intro s o
    obtain ⟨h1, h2, h3⟩ := ih (E.infer s [o] 1 sampler).1 ((E.infer s [o] 1 sampler).2 % 65536)
    simp only [loop, List.filterMap_cons, Event.lookup?, Event.cerrText?, Event.calledPtr,
      List.replicate_succ, h1, h2, h3, and_self]

theorem AssetsHarness.assets_main_calls_unchecked {σ : Type} (E : Env σ)
    (h0 : E.dlopen libraryPath ≠ 0) :
    CallsUnchecked (E.dlsym (E.dlopen libraryPath) "init")
      (E.dlsym (E.dlopen libraryPath) "load_with_rescale")
      (E.dlsym (E.dlopen libraryPath) "infer") (main E) := by
  by_cases hi : E.dlsym (E.dlopen libraryPath) "init" = 0
  · simp [CallsUnchecked, main, h0, execute, Event.isNullCall, Event.calledPtr, hi,
      Run.lookups, Run.stderr, Run.calledPtrs, Event.lookup?, Event.cerrText?]
  by_cases hl : E.dlsym (E.dlopen libraryPath) "load_with_rescale" = 0
  · simp [CallsUnchecked, main, h0, execute, Event.isNullCall, Event.calledPtr, hi, hl,
      Run.lookups, Run.stderr, Run.calledPtrs, Event.lookup?, Event.cerrText?]
  by_cases hf : E.dlsym (E.dlopen libraryPath) "infer" = 0
  · simp [CallsUnchecked, main, h0, execute, Event.isNullCall, Event.calledPtr, hi, hl, hf,
      Run.lookups, Run.stderr, Run.calledPtrs, Event.lookup?, Event.cerrText?]
  · rw [assets_main_of_loads E ⟨h0, hi, hl, hf⟩]
    simp only [CallsUnchecked, Run.lookups, Run.stderr, Run.calledPtrs, List.cons_append,
      List.nil_append, List.filterMap_cons, Event.lookup?, Event.cerrText?, Event.calledPtr,
      assets_loop_observations, hi, hl, hf, if_false, or_self]
    refine ⟨?_, ?_, ?_, ?_⟩ <;> trivial

theorem TestHarness.test_main_calls_unchecked {σ : Type} (E : Env σ)
    (h0 : E.dlopen (libraryPath E.win32) ≠ 0) :
    CallsUnchecked (E.dlsym (E.dlopen (libraryPath E.win32)) "init")
      (E.dlsym (E.dlopen (libraryPath E.win32)) "load_with_rescale")
      (E.dlsym (E.dlopen (libraryPath E.win32)) "infer") (main E) := by
  by_cases hi : E.dlsym (E.dlopen (libraryPath E.win32)) "init" = 0
  · simp [CallsUnchecked, main, h0, execute, Event.isNullCall, Event.calledPtr, hi,
      Run.lookups, Run.stderr, Run.calledPtrs, Event.lookup?, Event.cerrText?]
  by_cases hl : E.dlsym (E.dlopen (libraryPath E.win32)) "load_with_rescale" = 0
  · simp [CallsUnchecked, main, h0, execute, Event.isNullCall, Event.calledPtr, hi, hl,
      Run.lookups, Run.stderr, Run.calledPtrs, Event.lookup?, Event.cerrText?]
  by_cases hf : E.dlsym (E.dlopen (libraryPath E.win32)) "infer" = 0
  · simp [CallsUnchecked, main, h0, execute, Event.isNullCall, Event.calledPtr, hi, hl, hf,
      Run.lookups, Run.stderr, Run.calledPtrs, Event.lookup?, Event.cerrText?]
  · rw [test_main_of_loads E ⟨h0, hi, hl, hf⟩]
    simp only [CallsUnchecked, Run.lookups, Run.stderr, Run.calledPtrs, List.cons_append,
      List.nil_append, List.filterMap_cons, Event.lookup?, Event.cerrText?, Event.calledPtr,
      test_loop_observations, hi, hl, hf, if_false, or_self]
    refine ⟨?_, ?_, ?_, ?_⟩ <;> trivial

/-- C8: the only failure check of either harness is on the library handle. With a
null handle the harness writes the `Cannot open library` message to standard
error and returns 1, with no symbol lookup and no library call. With a non-null
handle it looks the three symbols up and calls through each resolved pointer
without testing it (a null pointer is called through too, which is undefined
behaviour), and with the three symbols resolved it returns 0. -/
theorem harness_checks_only_the_handle {σ : Type} (E : Env σ) :
    (E.dlopen AssetsHarness.libraryPath = 0 →
      AssetsHarness.main E =
        ⟨[.dlopen AssetsHarness.libraryPath,
          .cerr "Cannot open library: ", .cerr E.dlerror, .cerr "\n"], some 1⟩ ∧
      (AssetsHarness.main E).lookups = [] ∧ (AssetsHarness.main E).calledPtrs = []) ∧
    (E.dlopen AssetsHarness.libraryPath ≠ 0 →
      CallsUnchecked (E.dlsym (E.dlopen AssetsHarness.libraryPath) "init")
        (E.dlsym (E.dlopen AssetsHarness.libraryPath) "load_with_rescale")
        (E.dlsym (E.dlopen AssetsHarness.libraryPath) "infer") (AssetsHarness.main E)) ∧
    (E.dlopen (TestHarness.libraryPath E.win32) = 0 →
      TestHarness.main E =
        ⟨[.dlopen (TestHarness.libraryPath E.win32),
          .cerr "Cannot open library: ",
          .cerr (if E.win32 then toString E.GetLastError else E.dlerror), .cerr "\n"],
          some 1⟩ ∧
      (TestHarness.main E).lookups = [] ∧ (TestHarness.main E).calledPtrs = []) ∧
    (E.dlopen (TestHarness.libraryPath E.win32) ≠ 0 →
      CallsUnchecked (E.dlsym (E.dlopen (TestHarness.libraryPath E.win32)) "init")
        (E.dlsym (E.dlopen (TestHarness.libraryPath E.win32)) "load_with_rescale")
        (E.dlsym (E.dlopen (TestHarness.libraryPath E.win32)) "infer")
        (TestHarness.main E)) := by
  refine ⟨?_, AssetsHarness.assets_main_calls_unchecked E, ?_,
    TestHarness.test_main_calls_unchecked E⟩
  · intro h0
    simp [AssetsHarness.main, h0, Run.lookups, Run.calledPtrs, Event.lookup?, Event.calledPtr]
  · intro h0
    simp [TestHarness.main, h0, Run.lookups, Run.calledPtrs, Event.lookup?, Event.calledPtr]

/-! ## The theorems at the sample environment -/

/-- Witness of C6: in the sample environment the library loads for both
harnesses, and both make the calls init, load, then 21 times infer. -/
theorem harness_calls_respect_lifecycle_sample :
    sampleEnv.Loads AssetsHarness.libraryPath ∧
    sampleEnv.Loads (TestHarness.libraryPath sampleEnv.win32) ∧
    (AssetsHarness.main sampleEnv).ops =
      .init :: .load :: List.replicate 21 Contract.Op.infer ∧
    (TestHarness.main sampleEnv).ops =
      .init :: .load :: List.replicate 21 Contract.Op.infer :=
  ⟨⟨by decide, by decide, by decide, by decide⟩,
   ⟨by decide, by decide, by decide, by decide⟩,
   (harness_calls_respect_lifecycle sampleEnv
     ⟨by decide, by decide, by decide, by decide⟩
     ⟨by decide, by decide, by decide, by decide⟩).1.1,
   (harness_calls_respect_lifecycle sampleEnv
     ⟨by decide, by decide, by decide, by decide⟩
     ⟨by decide, by decide, by decide, by decide⟩).2.1⟩

/-- Witness of C7: in the sample environment the `len` arguments of
`assets/test.cpp` are 92 and then twenty times 1. -/
theorem assets_infer_calls_meet_precondition_sample :
    sampleEnv.Loads AssetsHarness.libraryPath ∧
    (AssetsHarness.main sampleEnv).inferCalls.map InferCall.len =
      92 :: List.replicate 20 1 :=
  ⟨⟨by decide, by decide, by decide, by decide⟩,
   (assets_infer_calls_meet_precondition sampleEnv
     ⟨by decide, by decide, by decide, by decide⟩).2.2.1⟩

/-- Witness of C9: in the sample environment `assets/test.cpp` calls `init`
once, with seed 0. -/
theorem assets_harness_supplies_scenario_inputs_sample :
    sampleEnv.Loads AssetsHarness.libraryPath ∧
    (AssetsHarness.main sampleEnv).events.filterMap Event.initSeed? = [0] :=
  ⟨⟨by decide, by decide, by decide, by decide⟩,
   (assets_harness_supplies_scenario_inputs sampleEnv
     ⟨by decide, by decide, by decide, by decide⟩).1⟩

/-- Witness of C10: in the sample environment `test/test.cpp` makes 21 `infer`
calls. -/
theorem test_harness_feeds_back_and_prints_sample :
    sampleEnv.Loads (TestHarness.libraryPath sampleEnv.win32) ∧
    (TestHarness.main sampleEnv).inferCalls.length = 21 :=
  ⟨⟨by decide, by decide, by decide, by decide⟩,
   (test_harness_feeds_back_and_prints sampleEnv
     ⟨by decide, by decide, by decide, by decide⟩).1⟩

end WebRwkvFfi
